import Mathlib

/-!
Verification development for the `ethereum-connectors` repository.

This file shallowly embeds the three managers of the repository's core —
`NetworkManager` (src/core/manager/network-manager.ts),
`WalletConnectionManager` (src/core/manager/wallet-connection-manager.ts) and
the wallet-to-registry synchronisation of `IntegratedManager`
(src/core/manager/integrated-manager.ts) — as pure Lean functions, and proves
properties of the embedded code.

Modelling conventions:
- JavaScript `Record<K, V>` objects are modelled as association lists with
  update-in-place-or-append semantics (`alistGet` / `alistSet`).
- `localStorage` persistence is a field `storage : Option _` on each manager
  state; `save()` writes `some config`, `clear()` writes `none`.
- Results of awaited adapter (connector) calls — `isAuthorized`, `connect`,
  `switchChain`, `getAccount(s)`, `getChainId`, `supportsChain` — are passed
  as explicit parameters (oracles for the external adapter's behaviour).
  `Date.now()` is a `now` parameter.
- Fallible operations return `Except String _`; a `.error` is a thrown
  (rejected) exception, `.ok` a normal return.
- JavaScript truthiness of strings/numbers (empty string and `0` are falsy)
  is made explicit with `jsOrStr` / `jsOrNat` and explicit `≠ 0` tests.
-/

/-- Association-list lookup, modelling `record[key]` on a JS object. -/
def alistGet {κ α : Type} [DecidableEq κ] : List (κ × α) → κ → Option α
  | [], _ => none
  | (k', v) :: rest, k => if k' = k then some v else alistGet rest k

/-- Association-list update-or-append, modelling `record[key] = value`. -/
def alistSet {κ α : Type} [DecidableEq κ] : List (κ × α) → κ → α → List (κ × α)
  | [], k, v => [(k, v)]
  | (k', v') :: rest, k, v =>
      if k' = k then (k, v) :: rest else (k', v') :: alistSet rest k v

theorem alistGet_alistSet_self {κ α : Type} [DecidableEq κ]
    (l : List (κ × α)) (k : κ) (v : α) : alistGet (alistSet l k v) k = some v := by
  induction l with
  | nil => simp [alistGet, alistSet]
  | cons hd tl ih =>
      obtain ⟨k', v'⟩ := hd
      by_cases h : k' = k <;> simp [alistGet, alistSet, h, ih]

/-- JavaScript `a || b` for an optional string (`undefined` and `""` are falsy). -/
def jsOrStr (m : Option String) (d : String) : String :=
  match m with
  | some s => if s = "" then d else s
  | none => d

/-- JavaScript `a || b` for an optional number (`undefined` and `0` are falsy). -/
def jsOrNat (m : Option Nat) (d : Nat) : Nat :=
  match m with
  | some n => if n = 0 then d else n
  | none => d

/-- JavaScript `s.includes(pat)` for a string. -/
def includesStr (s pat : String) : Bool := (s.splitOn pat).length != 1

/-- JavaScript `s.startsWith(pre)`, computed on the character lists. -/
def strStartsWith (s pre : String) : Bool := pre.data.isPrefixOf s.data

/-- JavaScript `m?.includes(pat)` for an optional string. -/
def optIncludes (m : Option String) (pat : String) : Bool :=
  match m with
  | some s => includesStr s pat
  | none => false

/-! ## Network registry (`NetworkManager`, src/core/manager/network-manager.ts) -/

/-- RPC endpoint configuration (src/core/types/network.ts, `RpcEndpoint`).
`lastChecked` (a `Date`) is modelled as epoch milliseconds. -/
structure RpcEndpoint where
  url : String
  isPrimary : Bool
  isAvailable : Option Bool
  latency : Option Nat
  lastChecked : Option Nat
  deriving Repr, DecidableEq

/-- Network configuration (src/core/types/network.ts, `NetworkConfig`). -/
structure NetworkConfig where
  chainId : Nat
  name : String
  symbol : String
  rpcEndpoints : List RpcEndpoint
  blockExplorer : Option String
  iconUrl : Option String
  isCustom : Bool
  isBuiltIn : Bool
  createdAt : Option String
  updatedAt : Option String
  deriving Repr, DecidableEq

/-- Per-namespace enabled set and selection (src/core/types/network.ts,
`NamespaceConfig`). -/
structure NamespaceConfig where
  enabledChainIds : List Nat
  currentChainId : Option Nat
  deriving Repr, DecidableEq

/-- Full persisted registry (src/core/types/network.ts, `StoredNetworkConfig`). -/
structure StoredNetworkConfig where
  networks : List (Nat × NetworkConfig)
  namespaces : List (String × NamespaceConfig)
  deriving Repr, DecidableEq

/-- Events emitted by the network manager (src/core/types/network.ts,
`NetworkManagerEvents`). -/
inductive NMEvent where
  | networkAdded (network : NetworkConfig)
  | networkRemoved (chainId : Nat)
  | networkUpdated (network : NetworkConfig)
  | networkToggled (nsKey : String) (chainId : Nat) (enabled : Bool)
  | currentNetworkChanged (nsKey : String) (chainId : Nat)
  deriving Repr, DecidableEq

/-- In-memory configuration plus the persisted copy (the `NetworkStorage` slot);
`save()` sets `storage := some config`. -/
structure NMState where
  config : StoredNetworkConfig
  storage : Option StoredNetworkConfig
  deriving Repr, DecidableEq

/-- Input type of `addOrUpdateCustomNetwork`:
`Omit<NetworkConfig, 'isCustom' | 'isBuiltIn'>`. -/
structure NetworkInput where
  chainId : Nat
  name : String
  symbol : String
  rpcEndpoints : List RpcEndpoint
  blockExplorer : Option String
  iconUrl : Option String
  createdAt : Option String
  updatedAt : Option String
  deriving Repr, DecidableEq

/-- `NetworkManager.getNetwork(chainId)` (network-manager.ts line 91). -/
def getNetwork (st : NMState) (chainId : Nat) : Option NetworkConfig :=
  alistGet st.config.networks chainId

/-- `NetworkManager.addOrUpdateCustomNetwork(network)` (network-manager.ts
line 106): upsert stamping `isCustom := true`, `isBuiltIn := false`,
`createdAt := existing?.createdAt || now`, `updatedAt := now`; saves and emits
`networkAdded` for a new entry, `networkUpdated` for an existing one. -/
def addOrUpdateCustomNetwork (st : NMState) (network : NetworkInput) (now : String) :
    NMState × List NMEvent :=
  let existing := alistGet st.config.networks network.chainId
  let isNew := existing.isNone
  let newNet : NetworkConfig :=
    { chainId := network.chainId, name := network.name, symbol := network.symbol
      rpcEndpoints := network.rpcEndpoints, blockExplorer := network.blockExplorer
      iconUrl := network.iconUrl, isCustom := true, isBuiltIn := false
      createdAt := some (jsOrStr (existing.bind NetworkConfig.createdAt) now)
      updatedAt := some now }
  let cfg2 : StoredNetworkConfig :=
    { st.config with networks := alistSet st.config.networks network.chainId newNet }
  (⟨cfg2, some cfg2⟩,
    [if isNew then NMEvent.networkAdded newNet else NMEvent.networkUpdated newNet])

/-- `NetworkManager.toggleNetwork(namespace, chainId, enabled)`
(network-manager.ts line 181). Lazily creates the namespace record; enabling
appends when absent (first enabled network also becomes current); disabling an
enabled network refuses when it is the last one (`return false`, no save, no
event); disabling the current network moves current to the first remaining
entry; every other path saves, emits `networkToggled`, and returns `true`. -/
def toggleNetwork (st : NMState) (nsKey : String) (chainId : Nat) (enabled : Bool) :
    NMState × List NMEvent × Bool :=
  let cfg1 : StoredNetworkConfig :=
    if (alistGet st.config.namespaces nsKey).isNone then
      { st.config with
        namespaces := alistSet st.config.namespaces nsKey ⟨[], none⟩ }
    else st.config
  let ns := (alistGet cfg1.namespaces nsKey).getD ⟨[], none⟩
  let mem := ns.enabledChainIds.contains chainId
  if enabled && !mem then
    let ids := ns.enabledChainIds ++ [chainId]
    let ns' : NamespaceConfig :=
      ⟨ids, if ids.length = 1 then some chainId else ns.currentChainId⟩
    let cfg2 : StoredNetworkConfig :=
      { cfg1 with namespaces := alistSet cfg1.namespaces nsKey ns' }
    (⟨cfg2, some cfg2⟩, [NMEvent.networkToggled nsKey chainId enabled], true)
  else if !enabled && mem then
    if ns.enabledChainIds.length = 1 then
      (⟨cfg1, st.storage⟩, [], false)
    else
      let ids := ns.enabledChainIds.erase chainId
      let ns' : NamespaceConfig :=
        ⟨ids, if ns.currentChainId = some chainId then ids.head? else ns.currentChainId⟩
      let cfg2 : StoredNetworkConfig :=
        { cfg1 with namespaces := alistSet cfg1.namespaces nsKey ns' }
      (⟨cfg2, some cfg2⟩, [NMEvent.networkToggled nsKey chainId enabled], true)
  else
    (⟨cfg1, some cfg1⟩, [NMEvent.networkToggled nsKey chainId enabled], true)

/-- `NetworkManager.isNetworkEnabled(namespace, chainId)` (network-manager.ts
line 223): `namespaces[ns]?.enabledChainIds.includes(chainId) || false`. -/
def isNetworkEnabled (st : NMState) (nsKey : String) (chainId : Nat) : Bool :=
  match alistGet st.config.namespaces nsKey with
  | some ns => ns.enabledChainIds.contains chainId
  | none => false

/-- `NetworkManager.setCurrentNetwork(namespace, chainId)` (network-manager.ts
line 230): when the namespace record is missing, creates it with an empty
enabled set and `currentChainId := chainId`, then saves and emits; when it
exists, only a member of `enabledChainIds` may become current (otherwise
warn and return without saving or emitting). -/
def setCurrentNetwork (st : NMState) (nsKey : String) (chainId : Nat) :
    NMState × List NMEvent :=
  match alistGet st.config.namespaces nsKey with
  | none =>
      let cfg2 : StoredNetworkConfig :=
        { st.config with
          namespaces := alistSet st.config.namespaces nsKey ⟨[], some chainId⟩ }
      (⟨cfg2, some cfg2⟩, [NMEvent.currentNetworkChanged nsKey chainId])
  | some ns =>
      if ns.enabledChainIds.contains chainId then
        let cfg2 : StoredNetworkConfig :=
          { st.config with
            namespaces :=
              alistSet st.config.namespaces nsKey ⟨ns.enabledChainIds, some chainId⟩ }
        (⟨cfg2, some cfg2⟩, [NMEvent.currentNetworkChanged nsKey chainId])
      else
        (st, [])

/-- `NetworkManager.getCurrentChainId(namespace)` (network-manager.ts line 264). -/
def getCurrentChainId (st : NMState) (nsKey : String) : Option Nat :=
  (alistGet st.config.namespaces nsKey).bind NamespaceConfig.currentChainId

/-! ## Connection coordinator (`WalletConnectionManager`,
src/core/manager/wallet-connection-manager.ts)

Connector objects are identified by their caller-assigned unique id string.
Metadata needed by `persistConnection` (`name`, `icon`, and the EIP-6963
`rdns`) is supplied by an oracle `meta : String → ConnMeta`. -/

/-- Connector metadata visible to `persistConnection` (`getMetadata()`, `name`,
`icon`, and the EIP-6963 `rdns` field when present). -/
structure ConnMeta where
  name : String
  icon : Option String
  rdns : Option String
  deriving Repr, DecidableEq

/-- Payload of the `connected` and `permissionChanged` connector events
(src/core/types/connector.ts, `ConnectionInfo`); all four fields are required
there. -/
structure ConnectionInfo where
  address : String
  addresses : List String
  chainId : Nat
  chains : List Nat
  deriving Repr, DecidableEq

/-- Result of `connector.connect(chainId)` (the Capability Contract); the code
defends with `result.addresses || [result.address]`, so `addresses` is kept
optional here. -/
structure ConnResult where
  address : String
  addresses : Option (List String)
  chainId : Nat
  deriving Repr, DecidableEq

/-- Extra EIP-6963 info stored alongside a persisted connection
(`data.eip6963Info` in `persistConnection`). -/
structure EIP6963Info where
  rdns : String
  name : String
  icon : String
  deriving Repr, DecidableEq

/-- Persisted connection record (src/core/types, `PersistedConnection`). -/
structure PersistedConnection where
  connectorId : String
  address : String
  chainId : Nat
  timestamp : Nat
  eip6963Info : Option EIP6963Info
  deriving Repr, DecidableEq

/-- The coordinator's session state (src/core/types, `ConnectionState`);
`connector` holds the active connector's id, `error` an error message. -/
structure ConnectionState where
  isConnected : Bool
  isConnecting : Bool
  address : Option String
  addresses : Option (List String)
  chainId : Option Nat
  chains : Option (List Nat)
  connector : Option String
  error : Option String
  deriving Repr, DecidableEq

/-- The initial (and fully disconnected) `ConnectionState`
(wallet-connection-manager.ts lines 21-30; the `disconnected` event handler
resets to exactly this record). -/
def initialConnectionState : ConnectionState :=
  ⟨false, false, none, none, none, none, none, none⟩

/-- Whole-manager state: the ids passed to `registerConnector` in call order
(the `connectors` map's keys are their deduplication; the handler sets wired
onto a connector are counted by multiplicity), the session state, and the
`ConnectionStorage` slot. -/
structure MState where
  registrations : List String
  state : ConnectionState
  storage : Option PersistedConnection
  deriving Repr, DecidableEq

/-- Manager state at construction time (no connectors registered). -/
def initM : MState := ⟨[], initialConnectionState, none⟩

/-- Membership in the `connectors` map (`this.connectors.get(id)` succeeds). -/
def hasConnector (m : MState) (c : String) : Bool := m.registrations.contains c

/-- Number of handler sets wired onto connector `c`: `registerConnector`
subscribes a fresh closure per event on every call and never unsubscribes
(`BaseConnector.on` adds to a `Set`, and distinct closures never collide). -/
def wiringCount (m : MState) (c : String) : Nat := m.registrations.count c

/-- `registerConnector(connector)` (wallet-connection-manager.ts line 47):
`connectors.set(id, connector)` plus one more set of event handlers. -/
def registerConnector (m : MState) (c : String) : MState :=
  { m with registrations := m.registrations ++ [c] }

/-- `persistConnection()` (wallet-connection-manager.ts line 383): writes
`{ connectorId, address, chainId: state.chainId || 1, timestamp: Date.now() }`
when connected with a connector and address, adding `eip6963Info` for an
`eip6963:`-prefixed connector id whose metadata has a truthy `rdns`; otherwise
leaves storage untouched. -/
def persistConnection (st : ConnectionState) (storage : Option PersistedConnection)
    (meta : String → ConnMeta) (now : Nat) : Option PersistedConnection :=
  match st.connector, st.address with
  | some c, some a =>
      if st.isConnected then
        some { connectorId := c, address := a, chainId := jsOrNat st.chainId 1
               timestamp := now
               eip6963Info :=
                 if strStartsWith c "eip6963:" then
                   match (meta c).rdns with
                   | some r =>
                       if r = "" then none
                       else some ⟨r, (meta c).name, ((meta c).icon).getD ""⟩
                   | none => none
                 else none }
      else storage
  | _, _ => storage

/-- The `connected` event handler wired in `registerConnector`
(wallet-connection-manager.ts lines 51-63): unconditionally installs the full
connected state for the emitting connector and persists. -/
def onConnected (m : MState) (c : String) (info : ConnectionInfo)
    (meta : String → ConnMeta) (now : Nat) : MState :=
  let st : ConnectionState :=
    { isConnected := true, isConnecting := false
      address := some info.address, addresses := some info.addresses
      chainId := some info.chainId, chains := some info.chains
      connector := some c, error := none }
  { m with state := st, storage := persistConnection st m.storage meta now }

/-- The `disconnected` event handler (lines 65-81): only when the emitting
connector is still the active one, reset the state and clear storage. -/
def onDisconnected (m : MState) (c : String) : MState :=
  if m.state.connector = some c then
    { m with state := initialConnectionState, storage := none }
  else m

/-- The `permissionChanged` event handler (lines 83-97): only when the emitting
connector is active, merge the new connection info (flags untouched) and
persist. -/
def onPermissionChanged (m : MState) (c : String) (info : ConnectionInfo)
    (meta : String → ConnMeta) (now : Nat) : MState :=
  if m.state.connector = some c then
    let st : ConnectionState :=
      { m.state with
        address := some info.address, addresses := some info.addresses
        chainId := some info.chainId, chains := some info.chains }
    { m with state := st, storage := persistConnection st m.storage meta now }
  else m

/-- The `error` event handler (lines 99-109): when the emitting connector is
active or a connection attempt is in flight, record the error and clear
`isConnecting`; connection info is kept. -/
def onError (m : MState) (c : String) (e : String) : MState :=
  if m.state.connector == some c || m.state.isConnecting then
    { m with state := { m.state with error := some e, isConnecting := false } }
  else m

/-- First synchronous segment of `connect(connector, chainId)` (lines 135-139):
`updateState({ ...state, isConnecting: true, error: undefined })`, executed
before `connector.connect` is awaited. -/
def connectStart (m : MState) : MState :=
  { m with state := { m.state with isConnecting := true, error := none } }

/-- Success continuation of `connect` (lines 145-155): install the connected
state from the connect result (note: no `chains` key in the literal, so
`chains` becomes `undefined`) and persist. -/
def connectSuccess (m : MState) (c : String) (r : ConnResult)
    (meta : String → ConnMeta) (now : Nat) : MState :=
  let st : ConnectionState :=
    { isConnected := true, isConnecting := false
      address := some r.address, addresses := some (r.addresses.getD [r.address])
      chainId := some r.chainId, chains := none
      connector := some c, error := none }
  { m with state := st, storage := persistConnection st m.storage meta now }

/-- Failure continuation of `connect` (lines 156-163): clear `isConnecting`,
record the error (the exception is re-thrown). -/
def connectFailure (m : MState) (e : String) : MState :=
  { m with state := { m.state with isConnecting := false, error := some e } }

/-- Observable side effects of a `disconnect()` call, in program order. -/
inductive ManagerEffect where
  | storageClear
  | connectorDisconnect (id : String)
  deriving Repr, DecidableEq

/-- `disconnect()` (wallet-connection-manager.ts lines 169-176): when a
connector is active, clear the persisted record, then call and await the
connector's own `disconnect`. The session state is not touched here (state
clearing happens in the `disconnected` event handler). -/
def disconnectCall (m : MState) : MState × List ManagerEffect :=
  match m.state.connector with
  | some c => ({ m with storage := none },
               [ManagerEffect.storageClear, ManagerEffect.connectorDisconnect c])
  | none => (m, [])

/-- `isExpired(timestamp, timeout)` (src/utils/format.ts):
`Date.now() - timestamp > timeout`. -/
def isExpired (timestamp timeout now : Nat) : Bool := now - timestamp > timeout

/-- `CONNECTION_TIMEOUT` (wallet-connection-manager.ts line 11): 24 hours. -/
def connectionTimeout : Nat := 24 * 60 * 60 * 1000

/-- Restoration step of `autoConnect` (lines 217-248): query the live
connector, prefer the persisted address when still authorized, and install the
connected state (storage is left as is; `autoConnect` does not re-persist). -/
def autoRestore (m : MState) (p : PersistedConnection) (addr : String)
    (addrs : List String) (cid : Nat) (supported : Option (List Nat))
    (dappChains : List Nat) : MState :=
  let chains := supported.getD dappChains
  let restoredAddress := if addrs.contains p.address then p.address else addr
  { m with state :=
      { isConnected := true, isConnecting := false
        address := some restoredAddress, addresses := some addrs
        chainId := some cid, chains := some chains
        connector := some p.connectorId, error := none } }

/-- Behaviour oracle for the connector consulted by `autoConnect`:
the result of `isAuthorized()`, the combined result of
`Promise.all([getAccount(), getAccounts(), getChainId()])`, and
`getSupportedChains()`. -/
structure AutoBeh where
  isAuthorized : Except String Bool
  accounts : Except String (String × List String × Nat)
  supportedChains : Option (List Nat)

/-- `autoConnect()` (wallet-connection-manager.ts lines 181-254): fails closed
(returns `false`, clearing storage) when there is no persisted record, the
record is older than 24 hours, the named connector is not registered, or
`isAuthorized()` resolves `false`; an exception during restoration is caught
(clear storage, return `false`); a rejected `isAuthorized()` call itself is
not caught and propagates. -/
def autoConnect (m : MState) (beh : String → AutoBeh) (now : Nat)
    (dappChains : List Nat) : Except String (Bool × MState) :=
  match m.storage with
  | none => .ok (false, m)
  | some persisted =>
    if isExpired persisted.timestamp connectionTimeout now then
      .ok (false, { m with storage := none })
    else if !(m.registrations.contains persisted.connectorId) then
      .ok (false, { m with storage := none })
    else
      match (beh persisted.connectorId).isAuthorized with
      | .error e => .error e
      | .ok isAuth =>
        if !isAuth then
          .ok (false, { m with storage := none })
        else
          match (beh persisted.connectorId).accounts with
          | .error _ => .ok (false, { m with storage := none })
          | .ok (addr, addrs, cid) =>
              .ok (true, autoRestore m persisted addr addrs cid
                    (beh persisted.connectorId).supportedChains dappChains)

/-- `switchAccount(address)` (lines 259-274), success case: requires an active
connector; after the connector call resolves, update `address` and persist. -/
def switchAccountSuccess (m : MState) (a : String) (meta : String → ConnMeta)
    (now : Nat) : MState :=
  let st : ConnectionState := { m.state with address := some a }
  { m with state := st, storage := persistConnection st m.storage meta now }

/-- Success continuation of `switchChain` (lines 301-313): update `chainId`
and persist. -/
def switchChainSuccess (m : MState) (cid : Nat) (meta : String → ConnMeta)
    (now : Nat) : MState :=
  let st : ConnectionState := { m.state with chainId := some cid }
  { m with state := st, storage := persistConnection st m.storage meta now }

/-- Catch branch of `switchChain` (lines 314-327) up to the re-throw: when the
current state is connected with an address, re-assert it (`updateState` of the
unchanged snapshot) and re-persist. -/
def switchChainFailure (m : MState) (meta : String → ConnMeta) (now : Nat) : MState :=
  if m.state.isConnected && m.state.address.isSome then
    { m with storage := persistConnection m.state m.storage meta now }
  else m

/-- A raw provider error (`{ code?, message? }`) from a live `switchChain`. -/
structure JsError where
  code : Option Int
  message : Option String
  deriving Repr, DecidableEq

/-- Error-message mapping of `switchChain`'s catch branch (lines 329-342). -/
def mapSwitchChainError (e : JsError) : String :=
  if optIncludes e.message "No wallet accounts" then
    "该网络上没有可用的钱包账户"
  else if e.code == some 4902 || optIncludes e.message "Unrecognized chain" then
    "钱包不支持该网络"
  else if e.code == some 4001 || optIncludes e.message "User rejected" then
    "已取消切换"
  else
    "网络切换失败"

/-- Outcome of a whole `switchChain(chainId)` call: the returned or thrown
result, the final session state and storage, and whether the live
`connector.switchChain` was invoked at all. -/
structure SwitchChainOutcome where
  result : Except String Unit
  finalState : ConnectionState
  finalStorage : Option PersistedConnection
  liveCalled : Bool

/-- `switchChain(chainId)` (wallet-connection-manager.ts lines 279-344) as one
sequential call. `supports` is the value of
`state.connector.supportsChain(chainId)`, `live` the result of the awaited
`connector.switchChain(chainId)`. Throws before the live call when no
connector is active or the active connector does not support the target. -/
def switchChain (m : MState) (cid : Nat) (supports : Bool)
    (live : Except JsError Unit) (meta : String → ConnMeta) (now : Nat) :
    SwitchChainOutcome :=
  match m.state.connector with
  | none => ⟨.error "No connector connected", m.state, m.storage, false⟩
  | some c =>
    if !supports then
      ⟨.error ("当前连接器（" ++ (meta c).name ++ "）不支持该网络"),
        m.state, m.storage, false⟩
    else
      match live with
      | .ok _ =>
          let m' := switchChainSuccess m cid meta now
          ⟨.ok (), m'.state, m'.storage, true⟩
      | .error e =>
          let m' := switchChainFailure m meta now
          ⟨.error (mapSwitchChainError e), m'.state, m'.storage, true⟩

/-- Event dispatch through `BaseConnector.emit`: every handler set wired by a
`registerConnector` call runs the `connected` transition once, so one emission
applies the transition `wiringCount` times (returned alongside the state). -/
def dispatchConnected (m : MState) (c : String) (info : ConnectionInfo)
    (meta : String → ConnMeta) (now : Nat) : MState × Nat :=
  ((fun mm => onConnected mm c info meta now)^[wiringCount m c] m, wiringCount m c)

/-- Atomic transitions of the coordinator. Each constructor is one synchronous
segment of the source (segments are separated by `await` suspension points);
results of awaited adapter calls appear as parameters. Event steps require the
emitting connector to be registered (handlers exist only then). With
`g = true`, `connectStart` is restricted to fire only from a disconnected
session; with `g = false` it is unrestricted, as in the source. -/
inductive MStep (g : Bool) : MState → MState → Prop
  | register (m : MState) (c : String) : MStep g m (registerConnector m c)
  | connectStart (m : MState) (h : g = true → m.state.isConnected = false) :
      MStep g m (connectStart m)
  | connectSuccess (m : MState) (c : String) (r : ConnResult)
      (meta : String → ConnMeta) (now : Nat) :
      MStep g m (connectSuccess m c r meta now)
  | connectFailure (m : MState) (e : String) : MStep g m (connectFailure m e)
  | disconnectCall (m : MState) : MStep g m (disconnectCall m).1
  | autoClear (m : MState) : MStep g m { m with storage := none }
  | autoRestore (m : MState) (p : PersistedConnection) (addr : String)
      (addrs : List String) (cid : Nat) (supported : Option (List Nat))
      (dappChains : List Nat) (hs : m.storage = some p)
      (hr : m.registrations.contains p.connectorId = true) :
      MStep g m (autoRestore m p addr addrs cid supported dappChains)
  | switchAccountSuccess (m : MState) (a : String) (meta : String → ConnMeta)
      (now : Nat) (h : m.state.connector.isSome = true) :
      MStep g m (switchAccountSuccess m a meta now)
  | switchChainSuccess (m : MState) (cid : Nat) (meta : String → ConnMeta)
      (now : Nat) (h : m.state.connector.isSome = true) :
      MStep g m (switchChainSuccess m cid meta now)
  | switchChainFailure (m : MState) (meta : String → ConnMeta) (now : Nat)
      (h : m.state.connector.isSome = true) :
      MStep g m (switchChainFailure m meta now)
  | onConnected (m : MState) (c : String) (info : ConnectionInfo)
      (meta : String → ConnMeta) (now : Nat)
      (h : m.registrations.contains c = true) :
      MStep g m (onConnected m c info meta now)
  | onDisconnected (m : MState) (c : String)
      (h : m.registrations.contains c = true) :
      MStep g m (onDisconnected m c)
  | onPermissionChanged (m : MState) (c : String) (info : ConnectionInfo)
      (meta : String → ConnMeta) (now : Nat)
      (h : m.registrations.contains c = true) :
      MStep g m (onPermissionChanged m c info meta now)
  | onError (m : MState) (c : String) (e : String)
      (h : m.registrations.contains c = true) :
      MStep g m (onError m c e)

/-- States reachable from the freshly constructed manager. -/
inductive MReachable (g : Bool) : MState → Prop
  | init : MReachable g initM
  | step {m m' : MState} : MReachable g m → MStep g m m' → MReachable g m'

/-- First half of the claimed `ConnectionState` invariant: a connected state
carries an address, a chain id and a connector. -/
def connInfoDefined (s : ConnectionState) : Prop :=
  s.isConnected = true →
    s.address.isSome = true ∧ s.chainId.isSome = true ∧ s.connector.isSome = true

/-- Second half of the claimed invariant: the two flags are mutually
exclusive. -/
def flagsExclusive (s : ConnectionState) : Prop :=
  ¬(s.isConnected = true ∧ s.isConnecting = true)

/-! ## Integration layer (`IntegratedManager`,
src/core/manager/integrated-manager.ts) -/

/-- Wallet-to-registry synchronisation inside `setupWalletManagerListeners`
(integrated-manager.ts lines 453-474): on a session snapshot that is connected
with a (truthy) chain id differing from the registry's current chain for the
namespace, set the registry's current network to it, first auto-enabling it
via `toggleNetwork` when it is not in the enabled set. -/
def syncWalletToRegistry (st : NMState) (nsKey : String)
    (session : ConnectionState) : NMState × List NMEvent :=
  match session.chainId with
  | some cid =>
    if session.isConnected && cid != 0 then
      if getCurrentChainId st nsKey = some cid then (st, [])
      else
        if isNetworkEnabled st nsKey cid then
          setCurrentNetwork st nsKey cid
        else
          let r1 := toggleNetwork st nsKey cid true
          let r2 := setCurrentNetwork r1.1 nsKey cid
          (r2.1, r1.2.1 ++ r2.2)
    else (st, [])
  | none => (st, [])

/-! ## Claims about the network registry -/

/-- C6: For every namespace whose `enabledChainIds` contains exactly one chain
`A`, `toggleNetwork(namespace, A, false)` returns `false` and leaves `A`
enabled: the manager state is unchanged (no save, no event), so the namespace
record still is `⟨[A], cur⟩`, and no exception can arise (the embedding is a
total function). -/
theorem C6_last_network_protection (st : NMState) (nsKey : String) (A : Nat)
    (cur : Option Nat)
    (h : alistGet st.config.namespaces nsKey = some ⟨[A], cur⟩) :
    toggleNetwork st nsKey A false = (st, [], false)
    ∧ alistGet (toggleNetwork st nsKey A false).1.config.namespaces nsKey
        = some ⟨[A], cur⟩ := by
  have h1 : toggleNetwork st nsKey A false = (st, [], false) := by
    unfold toggleNetwork
    simp [h]
  exact ⟨h1, by rw [h1]; exact h⟩

/-- Witness for C6 at a concrete namespace holding exactly chain 1. -/
def c6NM : NMState :=
  ⟨⟨[], [("demo", ⟨[1], some 1⟩)]⟩, some ⟨[], [("demo", ⟨[1], some 1⟩)]⟩⟩

theorem C6_last_network_protection_witness :
    toggleNetwork c6NM "demo" 1 false = (c6NM, [], false)
    ∧ alistGet (toggleNetwork c6NM "demo" 1 false).1.config.namespaces "demo"
        = some ⟨[1], some 1⟩ :=
  C6_last_network_protection c6NM "demo" 1 (some 1) (by decide)

/-- C10: With an existing namespace record, `toggleNetwork` calls that change
nothing — enabling an already-enabled chain, or disabling a chain that is not
enabled — still save the (unchanged) configuration, still emit
`networkToggled`, and still return `true`; the namespace record is unchanged.
Only the last-enabled-network guard returns `false` without emitting. -/
theorem C10_toggle_noop_saves_and_emits (st : NMState) (nsKey : String)
    (chainId : Nat) (enabled : Bool) (ns : NamespaceConfig)
    (h : alistGet st.config.namespaces nsKey = some ns)
    (hcase : (enabled = true ∧ ns.enabledChainIds.contains chainId = true)
           ∨ (enabled = false ∧ ns.enabledChainIds.contains chainId = false)) :
    toggleNetwork st nsKey chainId enabled
      = (⟨st.config, some st.config⟩,
         [NMEvent.networkToggled nsKey chainId enabled], true)
    ∧ alistGet (toggleNetwork st nsKey chainId enabled).1.config.namespaces nsKey
        = some ns := by
  have h1 : toggleNetwork st nsKey chainId enabled
      = (⟨st.config, some st.config⟩,
         [NMEvent.networkToggled nsKey chainId enabled], true) := by
    rcases hcase with ⟨he, hm⟩ | ⟨he, hm⟩ <;> subst he <;> simp at hm <;>
      (unfold toggleNetwork; simp [h, hm])
  exact ⟨h1, by rw [h1]; exact h⟩

/-- Witness for C10: enabling chain 1 in a namespace already enabling `[1]`. -/
theorem C10_toggle_noop_saves_and_emits_witness :
    toggleNetwork c6NM "demo" 1 true
      = (⟨c6NM.config, some c6NM.config⟩, [NMEvent.networkToggled "demo" 1 true], true)
    ∧ alistGet (toggleNetwork c6NM "demo" 1 true).1.config.namespaces "demo"
        = some ⟨[1], some 1⟩ :=
  C10_toggle_noop_saves_and_emits c6NM "demo" 1 true ⟨[1], some 1⟩ (by decide)
    (Or.inl ⟨rfl, by decide⟩)

/-- A registry state with no namespace records (the state right after
construction with no stored config and no built-in networks). -/
def nmEmpty : NMState := ⟨⟨[], []⟩, some ⟨[], []⟩⟩

/-- C5 counterexample: for a namespace with no existing record — where the
enabled set is empty, so `5` is certainly not a member — `setCurrentNetwork`
does mutate: it creates the record with `currentChainId := 5`, saves, and
emits `currentNetworkChanged`, contradicting the claim that no mutation and
no event occurs. -/
theorem C5_counterexample :
    (setCurrentNetwork nmEmpty "x" 5).2 = [NMEvent.currentNetworkChanged "x" 5]
    ∧ alistGet (setCurrentNetwork nmEmpty "x" 5).1.config.namespaces "x"
        = some ⟨[], some 5⟩
    ∧ (setCurrentNetwork nmEmpty "x" 5).1.config ≠ nmEmpty.config
    ∧ isNetworkEnabled nmEmpty "x" 5 = false := by
  refine ⟨rfl, rfl, ?_, rfl⟩
  decide

/-- C5 (amended): when the namespace has an existing record,
`setCurrentNetwork(namespace, chainId)` with `chainId` not in its
`enabledChainIds` performs no mutation and emits nothing; with `chainId`
enabled it sets `currentChainId`, persists, and emits
`currentNetworkChanged`. When the namespace has no record, however, the call
creates the record with an empty enabled set and `currentChainId := chainId`,
persists, and emits `currentNetworkChanged` — even though `chainId` is not in
the (empty) enabled set. -/
theorem C5_setCurrentNetwork_amended (st : NMState) (nsKey : String)
    (chainId : Nat) :
    (∀ ns, alistGet st.config.namespaces nsKey = some ns →
      (ns.enabledChainIds.contains chainId = false →
        setCurrentNetwork st nsKey chainId = (st, []))
      ∧ (ns.enabledChainIds.contains chainId = true →
        ∃ cfg2, setCurrentNetwork st nsKey chainId
            = (⟨cfg2, some cfg2⟩, [NMEvent.currentNetworkChanged nsKey chainId])
          ∧ alistGet cfg2.namespaces nsKey
              = some ⟨ns.enabledChainIds, some chainId⟩))
    ∧ (alistGet st.config.namespaces nsKey = none →
      ∃ cfg2, setCurrentNetwork st nsKey chainId
          = (⟨cfg2, some cfg2⟩, [NMEvent.currentNetworkChanged nsKey chainId])
        ∧ alistGet cfg2.namespaces nsKey = some ⟨[], some chainId⟩) := by
  constructor
  · intro ns hns
    constructor
    · intro hmem
      unfold setCurrentNetwork
      rw [hns]
      simp at hmem
      simp [hmem]
    · intro hmem
      refine ⟨{ st.config with
          namespaces := alistSet st.config.namespaces nsKey
            ⟨ns.enabledChainIds, some chainId⟩ },
        ?_, alistGet_alistSet_self _ _ _⟩
      unfold setCurrentNetwork
      rw [hns]
      simp at hmem
      simp [hmem]
  · intro hnone
    refine ⟨{ st.config with
        namespaces := alistSet st.config.namespaces nsKey ⟨[], some chainId⟩ },
      ?_, alistGet_alistSet_self _ _ _⟩
    unfold setCurrentNetwork
    rw [hnone]

/-- Witness for the amended C5: in a namespace enabling `[1, 137]`, setting
current to the disabled chain `56` changes nothing and emits nothing, while
setting current to the enabled chain `137` updates, saves, and emits. -/
def c5NM : NMState :=
  ⟨⟨[], [("demo", ⟨[1, 137], some 1⟩)]⟩, some ⟨[], [("demo", ⟨[1, 137], some 1⟩)]⟩⟩

theorem C5_setCurrentNetwork_amended_witness :
    setCurrentNetwork c5NM "demo" 56 = (c5NM, [])
    ∧ (setCurrentNetwork c5NM "demo" 137).2
        = [NMEvent.currentNetworkChanged "demo" 137]
    ∧ alistGet (setCurrentNetwork c5NM "demo" 137).1.config.namespaces "demo"
        = some ⟨[1, 137], some 137⟩ := by
  have h := C5_setCurrentNetwork_amended c5NM "demo" 56
  have h137 := C5_setCurrentNetwork_amended c5NM "demo" 137
  obtain ⟨cfg2, heq, hlook⟩ := (h137.1 ⟨[1, 137], some 1⟩ (by decide)).2 (by decide)
  refine ⟨(h.1 ⟨[1, 137], some 1⟩ (by decide)).1 (by decide), ?_, ?_⟩
  · rw [heq]
  · rw [heq]
    exact hlook

/-- C9: `addOrUpdateCustomNetwork(cfg)` followed by `getNetwork(cfg.chainId)`
returns a network equal to `cfg` on every caller-supplied field (`chainId`,
`name`, `symbol`, `rpcEndpoints`, `blockExplorer`, `iconUrl`) with
`isCustom = true` (and `isBuiltIn = false`); on an update of an existing
entry the original (non-empty) `createdAt` is preserved. The manager-stamped
timestamps `createdAt`/`updatedAt` are the only fields not taken from `cfg`,
exactly as the claim's parenthetical concedes. -/
theorem C9_addOrUpdate_roundtrip (st : NMState) (cfg : NetworkInput)
    (now : String) :
    ∃ n, getNetwork (addOrUpdateCustomNetwork st cfg now).1 cfg.chainId = some n
      ∧ n.chainId = cfg.chainId ∧ n.name = cfg.name ∧ n.symbol = cfg.symbol
      ∧ n.rpcEndpoints = cfg.rpcEndpoints ∧ n.blockExplorer = cfg.blockExplorer
      ∧ n.iconUrl = cfg.iconUrl ∧ n.isCustom = true ∧ n.isBuiltIn = false
      ∧ (∀ e s, alistGet st.config.networks cfg.chainId = some e →
          e.createdAt = some s → s ≠ "" → n.createdAt = some s) := by
  refine ⟨⟨cfg.chainId, cfg.name, cfg.symbol, cfg.rpcEndpoints, cfg.blockExplorer,
      cfg.iconUrl, true, false,
      some (jsOrStr ((alistGet st.config.networks cfg.chainId).bind
        NetworkConfig.createdAt) now),
      some now⟩,
    ?_, rfl, rfl, rfl, rfl, rfl, rfl, rfl, rfl, ?_⟩
  · unfold addOrUpdateCustomNetwork getNetwork
    exact alistGet_alistSet_self _ _ _
  · intro e s he hs hne
    show some (jsOrStr ((alistGet st.config.networks cfg.chainId).bind
      NetworkConfig.createdAt) now) = some s
    rw [he]
    simp [jsOrStr, hs, hne]

/-- Witness for C9: updating an existing custom entry for chain 7 preserves
its `createdAt` and returns the new payload with `isCustom = true`. -/
def c9Old : NetworkConfig :=
  ⟨7, "Old", "OLD", [], none, none, true, false, some "T0", some "T0"⟩

def c9NM : NMState := ⟨⟨[(7, c9Old)], []⟩, some ⟨[(7, c9Old)], []⟩⟩

def c9Input : NetworkInput := ⟨7, "New", "NEW", [⟨"https://rpc7", true, none, none, none⟩], some "https://scan7", none, none, none⟩

theorem C9_addOrUpdate_roundtrip_witness :
    (getNetwork (addOrUpdateCustomNetwork c9NM c9Input "T1").1 7).map
        NetworkConfig.name = some "New"
    ∧ (getNetwork (addOrUpdateCustomNetwork c9NM c9Input "T1").1 7).map
        NetworkConfig.isCustom = some true
    ∧ (getNetwork (addOrUpdateCustomNetwork c9NM c9Input "T1").1 7).map
        NetworkConfig.createdAt = some (some "T0") := by
  obtain ⟨n, hget, h1, h2, h3, h4, h5, h6, h7, h8, h9⟩ :=
    C9_addOrUpdate_roundtrip c9NM c9Input "T1"
  have hget7 : getNetwork (addOrUpdateCustomNetwork c9NM c9Input "T1").1 7
      = some n := hget
  have hcre := h9 c9Old "T0" (by decide) (by decide) (by decide)
  refine ⟨?_, ?_, ?_⟩ <;> rw [hget7] <;> simp [h2, h7, hcre, c9Input]

/-! ## Claim about the integration layer -/

/-- C7: When the coordinator's session is connected with a (nonzero) chain id
that differs from the registry's current chain for the namespace, the
integration layer reconciles the registry to the wallet: if the chain is
already enabled it calls exactly `setCurrentNetwork` — leaving the enabled
set unchanged and making the session's chain current — and if it is not
enabled it first auto-enables it via `toggleNetwork` and then calls
`setCurrentNetwork`. -/
theorem C7_wallet_to_registry_sync (st : NMState) (nsKey : String)
    (session : ConnectionState) (cid : Nat)
    (hconn : session.isConnected = true) (hcid : session.chainId = some cid)
    (h0 : cid ≠ 0) (hdiff : getCurrentChainId st nsKey ≠ some cid) :
    (isNetworkEnabled st nsKey cid = true →
      syncWalletToRegistry st nsKey session = setCurrentNetwork st nsKey cid
      ∧ ∀ ns, alistGet st.config.namespaces nsKey = some ns →
          alistGet (syncWalletToRegistry st nsKey session).1.config.namespaces nsKey
            = some ⟨ns.enabledChainIds, some cid⟩)
    ∧ (isNetworkEnabled st nsKey cid = false →
      syncWalletToRegistry st nsKey session
        = ((setCurrentNetwork (toggleNetwork st nsKey cid true).1 nsKey cid).1,
           (toggleNetwork st nsKey cid true).2.1
             ++ (setCurrentNetwork (toggleNetwork st nsKey cid true).1 nsKey cid).2)) := by
  constructor
  · intro hen
    have heq : syncWalletToRegistry st nsKey session
        = setCurrentNetwork st nsKey cid := by
      unfold syncWalletToRegistry
      rw [hcid]
      simp [hconn, h0, hdiff, hen]
    refine ⟨heq, ?_⟩
    intro ns hns
    have hmem : ns.enabledChainIds.contains cid = true := by
      unfold isNetworkEnabled at hen
      rw [hns] at hen
      exact hen
    rw [heq]
    unfold setCurrentNetwork
    rw [hns]
    simp at hmem
    simp [hmem, alistGet_alistSet_self]
  · intro hen
    unfold syncWalletToRegistry
    rw [hcid]
    simp [hconn, h0, hdiff, hen]

/-- Witness for C7: the spec scenario — namespace `"demo"` enabled on
`[1, 137]` with current `1`, and a connected session reporting chain `137` —
results in exactly `setCurrentNetwork("demo", 137)`: the enabled set stays
`[1, 137]` and current becomes `137`. -/
def c7Session : ConnectionState :=
  ⟨true, false, some "0xA", some ["0xA"], some 137, some [137], some "injected", none⟩

theorem C7_wallet_to_registry_sync_witness :
    syncWalletToRegistry c5NM "demo" c7Session = setCurrentNetwork c5NM "demo" 137
    ∧ alistGet (syncWalletToRegistry c5NM "demo" c7Session).1.config.namespaces "demo"
        = some ⟨[1, 137], some 137⟩ := by
  have h := (C7_wallet_to_registry_sync c5NM "demo" c7Session 137 rfl rfl
      (by decide) (by decide)).1 (by decide)
  exact ⟨h.1, h.2 ⟨[1, 137], some 1⟩ (by decide)⟩

/-! ## Claims about the connection coordinator -/

/-- C2: `autoConnect()` fails closed. In each of the four claimed cases — no
persisted record, record older than 24 hours, persisted connector id not
registered, `isAuthorized()` resolving `false` — the call returns `false`
normally (no exception: the result is `.ok`), the persisted record is cleared
(the final storage is `none`; when no record existed it already was), and the
session state is left exactly as it was (in particular, at its initial
disconnected values when called at startup). -/
theorem C2_autoConnect_fails_closed (m : MState) (beh : String → AutoBeh)
    (now : Nat) (dappChains : List Nat)
    (hcase : m.storage = none
      ∨ ∃ p, m.storage = some p ∧
          (isExpired p.timestamp connectionTimeout now = true
           ∨ m.registrations.contains p.connectorId = false
           ∨ (beh p.connectorId).isAuthorized = .ok false)) :
    autoConnect m beh now dappChains = .ok (false, { m with storage := none }) := by
  rcases hcase with hnone | ⟨p, hp, hcase⟩
  · obtain ⟨regs, st, stor⟩ := m
    simp only at hnone
    subst hnone
    rfl
  · rcases hcase with hexp | hreg | hauth
    · unfold autoConnect
      rw [hp]
      simp [hexp]
    · unfold autoConnect
      rw [hp]
      simp at hreg
      cases hexp : isExpired p.timestamp connectionTimeout now <;>
        simp [hexp, hreg]
    · unfold autoConnect
      rw [hp]
      cases hexp : isExpired p.timestamp connectionTimeout now <;>
        cases hreg : m.registrations.contains p.connectorId <;>
          simp [hexp, hreg, hauth]

/-- Witness for C2 at the spec scenario: a persisted record timestamped 25
hours before `now` makes `autoConnect` return `false` with storage cleared
and the state still at its initial disconnected values. -/
def c2P : PersistedConnection := ⟨"injected", "0xA", 1, 0, none⟩

def c2M : MState := ⟨["injected"], initialConnectionState, some c2P⟩

def c2Beh : String → AutoBeh := fun _ => ⟨.ok true, .ok ("0xA", ["0xA"], 1), none⟩

theorem C2_autoConnect_fails_closed_witness :
    autoConnect c2M c2Beh (25 * 60 * 60 * 1000) []
      = .ok (false, ⟨["injected"], initialConnectionState, none⟩)
    ∧ isExpired c2P.timestamp connectionTimeout (25 * 60 * 60 * 1000) = true := by
  constructor
  · exact C2_autoConnect_fails_closed c2M c2Beh (25 * 60 * 60 * 1000) []
      (Or.inr ⟨c2P, rfl, Or.inl (by decide)⟩)
  · decide

/-- C4: `disconnect()` with an active connector performs exactly two effects,
in this order: first the synchronous storage clear, then the call to the
connector's own `disconnect` — so the persisted record is gone before the
connector can reject or fail to emit — and it leaves the in-memory session
state untouched. The state is cleared only by the `disconnected` event
handler, which acts exactly when the emitting connector is still the active
one (resetting the state and clearing storage) and is a no-op otherwise. -/
theorem C4_disconnect_clears_storage_first (m : MState) (c : String)
    (hc : m.state.connector = some c) :
    (disconnectCall m).2
      = [ManagerEffect.storageClear, ManagerEffect.connectorDisconnect c]
    ∧ (disconnectCall m).1.storage = none
    ∧ (disconnectCall m).1.state = m.state
    ∧ (∀ m' : MState,
        (m'.state.connector = some c →
          (onDisconnected m' c).state = initialConnectionState
          ∧ (onDisconnected m' c).storage = none)
        ∧ (m'.state.connector ≠ some c → onDisconnected m' c = m')) := by
  refine ⟨?_, ?_, ?_, ?_⟩
  · unfold disconnectCall
    rw [hc]
  · unfold disconnectCall
    rw [hc]
  · unfold disconnectCall
    rw [hc]
  · intro m'
    constructor
    · intro h
      unfold onDisconnected
      rw [if_pos h]
      exact ⟨rfl, rfl⟩
    · intro h
      unfold onDisconnected
      rw [if_neg h]

/-- Witness for C4 at a concrete connected state. -/
def c4State : ConnectionState :=
  ⟨true, false, some "0xA", some ["0xA"], some 1, some [1], some "injected", none⟩

def c4M : MState := ⟨["injected"], c4State, some ⟨"injected", "0xA", 1, 0, none⟩⟩

theorem C4_disconnect_clears_storage_first_witness :
    (disconnectCall c4M).2
      = [ManagerEffect.storageClear, ManagerEffect.connectorDisconnect "injected"]
    ∧ (disconnectCall c4M).1.storage = none
    ∧ (disconnectCall c4M).1.state = c4State
    ∧ (onDisconnected c4M "injected").state = initialConnectionState := by
  have h := C4_disconnect_clears_storage_first c4M "injected" rfl
  exact ⟨h.1, h.2.1, h.2.2.1, ((h.2.2.2 c4M).1 rfl).1⟩

/-- A metadata oracle for connectors without EIP-6963 metadata. -/
def plainMeta : String → ConnMeta := fun _ => ⟨"Injected", none, none⟩

/-- A sample `connected` event payload. -/
def sampleInfo : ConnectionInfo := ⟨"0xA", ["0xA"], 1, [1]⟩

/-- C8 counterexample: registering the same connector twice leaves two handler
sets wired onto it (`registerConnector` subscribes fresh closures on every
call and never unsubscribes), so a single `connected` emission triggers the
state transition twice — not "exactly once" as claimed. -/
def c8M : MState := registerConnector (registerConnector initM "injected") "injected"

theorem C8_counterexample :
    (dispatchConnected c8M "injected" sampleInfo plainMeta 0).2 = 2
    ∧ ¬((dispatchConnected c8M "injected" sampleInfo plainMeta 0).2 = 1) := by
  constructor
  · rfl
  · decide

/-- C8 (amended): `registerConnector` is idempotent on the connectors map
(the id stays present), but the event wiring accumulates instead of being
replaced: each `registerConnector` call for an id adds one handler set, and a
single connector event triggers its state transition once per registration of
that id — `wiringCount` times — rather than exactly once. -/
theorem C8_registration_accumulates_wiring (m : MState) (c : String)
    (info : ConnectionInfo) (meta : String → ConnMeta) (now : Nat) :
    hasConnector (registerConnector m c) c = true
    ∧ wiringCount (registerConnector m c) c = wiringCount m c + 1
    ∧ (dispatchConnected m c info meta now).2 = wiringCount m c := by
  refine ⟨?_, ?_, rfl⟩
  · simp [hasConnector, registerConnector]
  · simp [wiringCount, registerConnector]

/-- C3: with an active connector, `switchChain(chainId)` (a) rejects with a
descriptive (non-empty) error without ever invoking the connector's live
`switchChain` when `supportsChain(chainId)` is false, and (b) when the live
call rejects while the session is connected with an address, the coordinator
re-persists the pre-failure state: the session state is unchanged (same
`isConnected`, `address`, `chainId`) and storage holds a fresh record whose
`connectorId`, `address` and `chainId` match that pre-failure state. -/
theorem C3_switchChain_guard_and_repersist (m : MState) (c : String) (cid : Nat)
    (supports : Bool) (live : Except JsError Unit) (meta : String → ConnMeta)
    (now : Nat) (hc : m.state.connector = some c) :
    (supports = false →
      (switchChain m cid supports live meta now).liveCalled = false
      ∧ (switchChain m cid supports live meta now).result
          = .error ("当前连接器（" ++ (meta c).name ++ "）不支持该网络")
      ∧ (switchChain m cid supports live meta now).finalState = m.state
      ∧ (switchChain m cid supports live meta now).finalStorage = m.storage)
    ∧ (∀ e, supports = true → live = .error e → m.state.isConnected = true →
        (switchChain m cid supports live meta now).liveCalled = true
        ∧ (switchChain m cid supports live meta now).result
            = .error (mapSwitchChainError e)
        ∧ (switchChain m cid supports live meta now).finalState = m.state
        ∧ (∀ a k, m.state.address = some a → m.state.chainId = some k → k ≠ 0 →
            (switchChain m cid supports live meta now).finalStorage
              = some { connectorId := c, address := a, chainId := k,
                       timestamp := now
                       eip6963Info :=
                         if strStartsWith c "eip6963:" then
                           match (meta c).rdns with
                           | some r =>
                               if r = "" then none
                               else some ⟨r, (meta c).name, ((meta c).icon).getD ""⟩
                           | none => none
                         else none })) := by
  constructor
  · intro hsup
    subst hsup
    unfold switchChain
    rw [hc]
    exact ⟨rfl, rfl, rfl, rfl⟩
  · intro e hsup hlive hconn
    subst hsup
    subst hlive
    refine ⟨?_, ?_, ?_, ?_⟩
    · unfold switchChain
      rw [hc]
      rfl
    · unfold switchChain
      rw [hc]
      rfl
    · unfold switchChain switchChainFailure
      rw [hc]
      by_cases h : (m.state.isConnected && m.state.address.isSome) = true <;>
        simp [h]
    · intro a k ha hk hk0
      unfold switchChain switchChainFailure persistConnection
      rw [hc, ha]
      simp [hconn, jsOrNat, hk]
      intro h0
      exact absurd h0 hk0

/-- Witness for C3: with a connector active on chain 1, an unsupported target
never reaches the live call, and a user-rejected live switch leaves the state
and re-persists the pre-failure record (chain 1). -/
def c3State : ConnectionState :=
  ⟨true, false, some "0xA", some ["0xA"], some 1, some [1], some "injected", none⟩

def c3M : MState := ⟨["injected"], c3State, none⟩

theorem C3_switchChain_guard_and_repersist_witness :
    (switchChain c3M 137 false (.ok ()) plainMeta 0).liveCalled = false
    ∧ (switchChain c3M 137 true (.error ⟨some 4001, none⟩) plainMeta 5).finalState
        = c3State
    ∧ (switchChain c3M 137 true (.error ⟨some 4001, none⟩) plainMeta 5).finalStorage
        = some ⟨"injected", "0xA", 1, 5, none⟩ := by
  have h1 := C3_switchChain_guard_and_repersist c3M "injected" 137 false
    (.ok ()) plainMeta 0 rfl
  have h2 := C3_switchChain_guard_and_repersist c3M "injected" 137 true
    (.error ⟨some 4001, none⟩) plainMeta 5 rfl
  have hb := h2.2 ⟨some 4001, none⟩ rfl rfl rfl
  refine ⟨(h1.1 rfl).1, hb.2.2.1, ?_⟩
  have hs := hb.2.2.2 "0xA" 1 rfl rfl (by decide)
  rw [hs]
  decide

theorem mstep_preserves_connInfoDefined {g : Bool} {m m' : MState}
    (hs : MStep g m m') (hm : connInfoDefined m.state) :
    connInfoDefined m'.state := by
  unfold connInfoDefined at *
  cases hs with
  | register c => exact hm
  | connectStart h => exact hm
  | connectSuccess c r meta now => intro; exact ⟨rfl, rfl, rfl⟩
  | connectFailure e => exact hm
  | disconnectCall =>
      unfold disconnectCall
      cases hc : m.state.connector with
      | none => simpa using hm
      | some c => simpa using hm
  | autoClear => exact hm
  | autoRestore p addr addrs cid supported dappChains hsx hrx =>
      intro
      exact ⟨rfl, rfl, rfl⟩
  | switchAccountSuccess a meta now h =>
      intro hc
      exact ⟨rfl, (hm hc).2.1, (hm hc).2.2⟩
  | switchChainSuccess cid meta now h =>
      intro hc
      exact ⟨(hm hc).1, rfl, (hm hc).2.2⟩
  | switchChainFailure meta now h =>
      unfold switchChainFailure
      split
      · simpa using hm
      · exact hm
  | onConnected c info meta now h => intro; exact ⟨rfl, rfl, rfl⟩
  | onDisconnected c =>
      unfold onDisconnected
      split
      · intro hc
        simp [initialConnectionState] at hc
      · exact hm
  | onPermissionChanged c info meta now h =>
      unfold onPermissionChanged
      split
      · rename_i hc
        intro
        exact ⟨rfl, rfl, by simp [hc]⟩
      · exact hm
  | onError c e h =>
      unfold onError
      split
      · intro hc
        exact hm hc
      · exact hm

theorem mstep_preserves_flagsExclusive {m m' : MState}
    (hs : MStep true m m') (hm : flagsExclusive m.state) :
    flagsExclusive m'.state := by
  unfold flagsExclusive at *
  cases hs with
  | register c => exact hm
  | connectStart h =>
      have hc := h rfl
      unfold connectStart
      simp [hc]
  | connectSuccess c r meta now => simp [connectSuccess]
  | connectFailure e => simp [connectFailure]
  | disconnectCall =>
      unfold disconnectCall
      cases hc : m.state.connector with
      | none => simpa using hm
      | some c => simpa using hm
  | autoClear => exact hm
  | autoRestore p addr addrs cid supported dappChains hsx hrx =>
      simp [autoRestore]
  | switchAccountSuccess a meta now h => simpa [switchAccountSuccess] using hm
  | switchChainSuccess cid meta now h => simpa [switchChainSuccess] using hm
  | switchChainFailure meta now h =>
      unfold switchChainFailure
      split
      · simpa using hm
      · exact hm
  | onConnected c info meta now h => simp [onConnected]
  | onDisconnected c =>
      unfold onDisconnected
      split
      · simp [initialConnectionState]
      · exact hm
  | onPermissionChanged c info meta now h =>
      unfold onPermissionChanged
      split
      · simpa using hm
      · exact hm
  | onError c e h =>
      unfold onError
      split
      · simp
      · exact hm

/-- C1 counterexample: after `registerConnector`, a `connected` event, and
the first synchronous segment of a second `connect()` call (all steps of the
unrestricted semantics `MStep false`, exactly as the source allows), the
manager reaches a state with `isConnected = true` and `isConnecting = true`
simultaneously — `connect()` sets `isConnecting` without clearing
`isConnected`, refuting the claimed mutual exclusion. -/
def c1Bad : MState :=
  connectStart (onConnected (registerConnector initM "injected") "injected"
    sampleInfo plainMeta 0)

theorem C1_counterexample :
    MReachable false c1Bad
    ∧ c1Bad.state.isConnected = true
    ∧ c1Bad.state.isConnecting = true := by
  refine ⟨?_, rfl, rfl⟩
  exact .step
    (.step (.step .init (.register initM "injected"))
      (.onConnected _ "injected" sampleInfo plainMeta 0 (by decide)))
    (.connectStart _ (fun hg => Bool.noConfusion hg))

/-- C1 (amended): in every reachable state of the coordinator,
`isConnected = true` implies `address`, `chainId` and `connector` are all
defined. The mutual-exclusion half of the claim holds only under the
restriction that `connect()` is never initiated while a session is already
connected (`MStep true`): under that restriction `isConnecting` and
`isConnected` are never simultaneously true, but the unrestricted code
violates it transiently during a connect-while-connected call. -/
theorem C1_invariant_amended (m : MState) :
    (MReachable false m → connInfoDefined m.state)
    ∧ (MReachable true m → connInfoDefined m.state ∧ flagsExclusive m.state) := by
  constructor
  · intro hr
    induction hr with
    | init => intro h; simp [initM, initialConnectionState] at h
    | step hr hs ih => exact mstep_preserves_connInfoDefined hs ih
  · intro hr
    induction hr with
    | init =>
        constructor
        · intro h
          simp [initM, initialConnectionState] at h
        · intro h
          simp [initM, initialConnectionState] at h
    | step hr hs ih =>
        exact ⟨mstep_preserves_connInfoDefined hs ih.1,
               mstep_preserves_flagsExclusive hs ih.2⟩

/-- Witness for the amended C1 at a concrete reachable connected state: after
registration and a `connected` event the state is connected with address,
chain id and connector all defined, and the flags mutually exclusive. -/
def c1Good : MState :=
  onConnected (registerConnector initM "injected") "injected" sampleInfo plainMeta 0

theorem C1_invariant_amended_witness :
    (c1Good.state.isConnected = true →
      c1Good.state.address.isSome = true ∧ c1Good.state.chainId.isSome = true
      ∧ c1Good.state.connector.isSome = true)
    ∧ ¬(c1Good.state.isConnected = true ∧ c1Good.state.isConnecting = true) := by
  have hr : MReachable true c1Good :=
    .step (.step .init (.register initM "injected"))
      (.onConnected _ "injected" sampleInfo plainMeta 0 (by decide))
  exact (C1_invariant_amended c1Good).2 hr
